import Mathlib

/-!
Verification development for the StreetEats backend (`src/server.js`).

The server is shallowly embedded: Mongoose documents become Lean structures,
each collection becomes a list inside a `ServerState`, and every HTTP handler
relevant to a claim becomes a pure function from a request and a state to a
response together with the next state.  Byte buffers are lists of naturals
below 256, and Node's `Buffer.toString('base64')` is embedded as an executable
base64 encoder over byte lists, with a matching standard decoder used to state
the round-trip law.
-/

namespace StreetEats

/-! ### Base64 codec (Node `Buffer.toString('base64')` / `Buffer.from(_, 'base64')`)

`b64char i` is the ASCII code of the character the RFC 4648 alphabet assigns
to the sextet `i`; `61` is the ASCII code of the `'='` padding character. -/

def b64char (i : Nat) : Nat :=
  if i < 26 then 65 + i
  else if i < 52 then 97 + (i - 26)
  else if i < 62 then 48 + (i - 52)
  else if i = 62 then 43
  else 47

def b64val (c : Nat) : Option Nat :=
  if 65 ≤ c ∧ c ≤ 90 then some (c - 65)
  else if 97 ≤ c ∧ c ≤ 122 then some (26 + (c - 97))
  else if 48 ≤ c ∧ c ≤ 57 then some (52 + (c - 48))
  else if c = 43 then some 62
  else if c = 47 then some 63
  else none

/-- Base64-encode a byte list: three bytes become four alphabet characters,
a final one- or two-byte group is padded with `'='` (code 61). -/
def b64encode : List Nat → List Nat
  | [] => []
  | [b0] => [b64char (b0 / 4), b64char (b0 % 4 * 16), 61, 61]
  | [b0, b1] => [b64char (b0 / 4), b64char (b0 % 4 * 16 + b1 / 16), b64char (b1 % 16 * 4), 61]
  | b0 :: b1 :: b2 :: rest =>
      b64char (b0 / 4) :: b64char (b0 % 4 * 16 + b1 / 16) ::
      b64char (b1 % 16 * 4 + b2 / 64) :: b64char (b2 % 64) :: b64encode rest

/-- Standard base64 decoder: consumes four characters at a time, accepting
`'='` padding only in a final group. -/
def b64decode : List Nat → Option (List Nat)
  | [] => some []
  | c0 :: c1 :: c2 :: c3 :: rest =>
    match b64val c0, b64val c1 with
    | some v0, some v1 =>
      if c2 = 61 then
        if c3 = 61 ∧ rest = [] then some [v0 * 4 + v1 / 16] else none
      else
        match b64val c2 with
        | some v2 =>
          if c3 = 61 then
            if rest = [] then some [v0 * 4 + v1 / 16, v1 % 16 * 16 + v2 / 4] else none
          else
            match b64val c3 with
            | some v3 =>
              match b64decode rest with
              | some bs => some ((v0 * 4 + v1 / 16) :: (v1 % 16 * 16 + v2 / 4) :: (v2 % 4 * 64 + v3) :: bs)
              | none => none
            | none => none
        | none => none
    | _, _ => none
  | _ => none

/-! ### Data model (`src/server.js` lines 30-76) -/

/-- A `Vendor` document (schema at `src/server.js:30`).  `id` stands for the
Mongo `_id`, which Mongo keeps unique within the collection. -/
structure VendorAcct where
  id : String
  fullName : String
  email : String
  phone : String
  password : String
  aadhar : String
  gst : String
  verified : Bool
  shoploc : String
  shopname : String
deriving DecidableEq, Repr

/-- A `Supplier` document (schema at `src/server.js:36`). -/
structure SupplierAcct where
  id : String
  fullName : String
  email : String
  phone : String
  password : String
  aadhar : String
  gst : String
  verified : Bool
  shoploc : String
  shopname : String
  shopStatus : Bool
deriving DecidableEq, Repr

/-- One element of a grievance's `attachments` array (`src/server.js:66`):
`content` is the base64 text, kept as its list of character codes. -/
structure Attachment where
  filename : String
  mimetype : String
  content : List Nat
deriving DecidableEq, Repr

/-- A `Grievance` document (`src/server.js:57`).  `issueDate` is a timestamp. -/
structure Grievance where
  supplierName : String
  supplierShop : String
  vendorName : String
  vendorLocation : String
  issueDate : Nat
  issueType : String
  issueDetails : String
  postedBy : String
  attachments : List Attachment
deriving DecidableEq, Repr

/-- A `Menu` document (`src/server.js:219`). -/
structure MenuItem where
  phone : String
  shopname : String
  gst : String
  itemname : String
  itemcost : Nat
  todaysstock : Nat
deriving DecidableEq, Repr

/-- A vendor-cart document (`src/server.js:366`). -/
structure CartEntry where
  itemId : String
  itemname : String
  itemcost : Nat
  quantity : Nat
  supplierShop : String
  supplierGst : String
  vendorName : String
  vendorShop : String
  vendorGst : String
  timestamp : Nat
deriving DecidableEq, Repr

/-- The persistent state the handlers touch: one list per Mongo collection,
plus `disk`, the set of temporary upload paths currently present under
`uploads/` (multer stages each part there before a handler runs). -/
structure ServerState where
  vendors : List VendorAcct
  suppliers : List SupplierAcct
  menus : List MenuItem
  carts : List CartEntry
  grievances : List Grievance
  disk : List String
deriving DecidableEq, Repr

/-! ### Registration (`src/server.js` lines 80-98)

Both handlers build the document with `new Model({ ...req.body })`: every
field present in the request body is copied in, and a schema default applies
only when the body omits the field.  The `Option` fields of the body record
whether the client supplied the corresponding key. -/

structure RegisterBody where
  fullName : String
  email : String
  phone : String
  password : String
  aadhar : String
  gst : String
  shoploc : String
  shopname : String
  verified : Option Bool
  shopStatus : Option Bool
deriving DecidableEq, Repr

/-- `POST /api/register`: the vendor document saved for a request body.
`newId` is the `_id` Mongo assigns. -/
def registerVendorDoc (newId : String) (body : RegisterBody) : VendorAcct :=
  { id := newId
    fullName := body.fullName
    email := body.email
    phone := body.phone
    password := body.password
    aadhar := body.aadhar
    gst := body.gst
    verified := body.verified.getD false
    shoploc := body.shoploc
    shopname := body.shopname }

/-- `POST /api/supplier/register`: the supplier document saved for a body. -/
def registerSupplierDoc (newId : String) (body : RegisterBody) : SupplierAcct :=
  { id := newId
    fullName := body.fullName
    email := body.email
    phone := body.phone
    password := body.password
    aadhar := body.aadhar
    gst := body.gst
    verified := body.verified.getD false
    shoploc := body.shoploc
    shopname := body.shopname
    shopStatus := body.shopStatus.getD false }

/-! ### Grievance submission (`src/server.js` lines 124-145) -/

/-- A multipart file part as multer hands it to the handler: the staged
temporary path, the client-declared name and MIME type, and the bytes that
`fs.readFileSync(file.path)` returns. -/
structure UploadedFile where
  originalname : String
  mimetype : String
  path : String
  bytes : List Nat
deriving DecidableEq, Repr

/-- The non-file fields of a grievance submission body. -/
structure GrievanceBody where
  supplierName : String
  supplierShop : String
  vendorName : String
  vendorLocation : String
  issueDate : Nat
  issueType : String
  issueDetails : String
  postedBy : String
deriving DecidableEq, Repr

/-- The attachment built for one uploaded file (`src/server.js:126`):
`{ filename: file.originalname, mimetype: file.mimetype,
content: fs.readFileSync(file.path).toString('base64') }`. -/
def encodeFile (f : UploadedFile) : Attachment :=
  { filename := f.originalname
    mimetype := f.mimetype
    content := b64encode f.bytes }

/-- The `Grievance` document the handler constructs (`src/server.js:132`). -/
def mkGrievance (body : GrievanceBody) (files : List UploadedFile) : Grievance :=
  { supplierName := body.supplierName
    supplierShop := body.supplierShop
    vendorName := body.vendorName
    vendorLocation := body.vendorLocation
    issueDate := body.issueDate
    issueType := body.issueType
    issueDetails := body.issueDetails
    postedBy := body.postedBy
    attachments := files.map encodeFile }

/-- `POST /api/grievance`.  `saveOk` records whether `grievance.save()`
succeeds.  On success the handler then runs
`req.files?.forEach(file => fs.unlinkSync(file.path))` and replies 200; when
`save` throws, control jumps to the `catch` block, which replies 500 without
ever reaching the unlink loop, so `disk` is left as it was. -/
def submitGrievance (st : ServerState) (body : GrievanceBody)
    (files : List UploadedFile) (saveOk : Bool) : Except String String × ServerState :=
  if saveOk then
    (Except.ok "Grievance submitted successfully",
     { st with
        grievances := st.grievances ++ [mkGrievance body files]
        disk := st.disk.filter (fun p => !((files.map (·.path)).contains p)) })
  else
    (Except.error "Grievance submission failed", st)

/-! ### Grievance listing (`src/server.js` lines 150-166) -/

/-- ASCII lower-casing of one character, as JavaScript `toLowerCase` acts on
the ASCII range used by the role values. -/
def lowerChar (c : Char) : Char :=
  if 65 ≤ c.toNat ∧ c.toNat ≤ 90 then Char.ofNat (c.toNat + 32) else c

/-- `String.prototype.toLowerCase` on ASCII strings. -/
def lowerString (s : String) : String := String.mk (s.data.map lowerChar)

/-- `.sort({ issueDate: -1 })`: most recent first. -/
def sortByDateDesc (l : List Grievance) : List Grievance :=
  l.insertionSort (fun a b => b.issueDate ≤ a.issueDate)

/-- `GET /api/grievances?postedBy=`.  A present, non-empty query value other
than `'all'` becomes the filter `{ postedBy: postedBy.toLowerCase() }`
(JavaScript `postedBy && postedBy !== 'all'` treats the empty string as
absent); otherwise no filter is applied. -/
def listGrievances (st : ServerState) (postedByQuery : Option String) : List Grievance :=
  let base :=
    match postedByQuery with
    | some p =>
        if p ≠ "" ∧ p ≠ "all" then
          st.grievances.filter (fun g => g.postedBy == lowerString p)
        else st.grievances
    | none => st.grievances
  sortByDateDesc base

/-! ### Verification controller (`src/server.js` lines 174-206) -/

/-- `GET /api/unverified-users`: `find({ verified: { $ne: true } })` on both
collections. -/
def unverifiedUsers (st : ServerState) : List VendorAcct × List SupplierAcct :=
  (st.vendors.filter (fun v => !v.verified),
   st.suppliers.filter (fun s => !s.verified))

/-- `POST /api/verify-user`.  `findByIdAndUpdate(id, { verified: true })`
updates the document whose unique `_id` matches, and does nothing when none
does; a `userType` matching neither branch skips both updates.  Every path
replies `'User verified'`. -/
def verifyUser (st : ServerState) (userType id : String) : String × ServerState :=
  if userType = "vendor" then
    ("User verified",
     { st with vendors :=
        st.vendors.map (fun v => if v.id = id then { v with verified := true } else v) })
  else if userType = "supplier" then
    ("User verified",
     { st with suppliers :=
        st.suppliers.map (fun s => if s.id = id then { s with verified := true } else s) })
  else
    ("User verified", st)

/-- `DELETE /api/reject-user/:type/:id`.  `findByIdAndDelete(id)` deletes the
document with the matching unique `_id` (a no-op when none exists); since
`_id` is unique this is embedded as dropping every matching element.  Every
path replies `'User rejected and deleted'`. -/
def rejectUser (st : ServerState) (type id : String) : String × ServerState :=
  if type = "vendor" then
    ("User rejected and deleted",
     { st with vendors := st.vendors.filter (fun v => v.id ≠ id) })
  else if type = "supplier" then
    ("User rejected and deleted",
     { st with suppliers := st.suppliers.filter (fun s => s.id ≠ id) })
  else
    ("User rejected and deleted", st)

/-! ### Shop status (`src/server.js` lines 246-275) -/

/-- `findOneAndUpdate` applies `f` to the first element satisfying `p`;
`none` when no element matches. -/
def updateFirstSupplier (p : SupplierAcct → Bool) (f : SupplierAcct → SupplierAcct) :
    List SupplierAcct → Option (List SupplierAcct)
  | [] => none
  | s :: rest =>
      if p s then some (f s :: rest)
      else (updateFirstSupplier p f rest).map (s :: ·)

/-- `POST /api/supplier/shop-status`.  `!phone` rejects an absent or empty
phone with a 400 (`status` is typed `Bool`, so the typeof check always
passes); `findOneAndUpdate({ phone }, { shopStatus: status })` updates the
first supplier with that phone, and a miss yields the 404
`'Supplier not found'`. -/
def shopStatusUpdate (st : ServerState) (phone : String) (status : Bool) :
    Except String String × ServerState :=
  if phone = "" then
    (Except.error "Phone and status (boolean) are required", st)
  else
    match updateFirstSupplier (fun s => s.phone == phone)
        (fun s => { s with shopStatus := status }) st.suppliers with
    | none => (Except.error "Supplier not found", st)
    | some suppliers' => (Except.ok "Shop status updated successfully", { st with suppliers := suppliers' })

/-! ### Sample data used by concrete counterexamples and witnesses -/

def emptyState : ServerState :=
  { vendors := [], suppliers := [], menus := [], carts := [], grievances := [], disk := [] }

def sampleBody : RegisterBody :=
  { fullName := "A B", email := "a@b.c", phone := "9000000001", password := "pw"
    aadhar := "1234", gst := "GST1", shoploc := "Loc", shopname := "Shop"
    verified := none, shopStatus := none }

def sampleVendor : VendorAcct :=
  { id := "v1", fullName := "A B", email := "a@b.c", phone := "9000000001"
    password := "pw", aadhar := "1234", gst := "GST1", verified := false
    shoploc := "Loc", shopname := "Shop" }

def sampleSupplier : SupplierAcct :=
  { id := "s1", fullName := "C D", email := "c@d.e", phone := "9000000002"
    password := "pw", aadhar := "5678", gst := "GST2", verified := false
    shoploc := "Loc2", shopname := "Shop2", shopStatus := false }

def sampleGrievanceBody : GrievanceBody :=
  { supplierName := "C D", supplierShop := "Shop2", vendorName := "A B"
    vendorLocation := "Loc", issueDate := 100, issueType := "late delivery"
    issueDetails := "order arrived late", postedBy := "vendor" }

def sampleFile : UploadedFile :=
  { originalname := "evidence.png", mimetype := "image/png"
    path := "uploads/1700000000000-evidence.png", bytes := [77, 97, 110] }

def sampleBodyVerifiedTrue : RegisterBody := { sampleBody with verified := some true }

def oneVendorState : ServerState := { emptyState with vendors := [sampleVendor] }

def oneSupplierState : ServerState := { emptyState with suppliers := [sampleSupplier] }

def sampleGrievanceVendor : Grievance :=
  { supplierName := "C D", supplierShop := "Shop2", vendorName := "A B"
    vendorLocation := "Loc", issueDate := 10, issueType := "late delivery"
    issueDetails := "order arrived late", postedBy := "vendor", attachments := [] }

def sampleGrievanceSupplier : Grievance :=
  { supplierName := "C D", supplierShop := "Shop2", vendorName := "A B"
    vendorLocation := "Loc", issueDate := 20, issueType := "payment"
    issueDetails := "payment pending", postedBy := "supplier", attachments := [] }

def sampleGrievanceVendor2 : Grievance :=
  { sampleGrievanceVendor with
      issueDate := 30
      issueType := "quality"
      issueDetails := "stale stock" }

/-- The descending-date order used by the listing endpoint. -/
instance : IsTotal Grievance (fun a b => b.issueDate ≤ a.issueDate) :=
  ⟨fun a b => Nat.le_total b.issueDate a.issueDate⟩

instance : IsTrans Grievance (fun a b => b.issueDate ≤ a.issueDate) :=
  ⟨fun _ _ _ hab hbc => Nat.le_trans hbc hab⟩

/-! ### Base64 lemmas -/

theorem b64val_b64char : ∀ i, i < 64 → b64val (b64char i) = some i := by decide

theorem b64char_ne_pad : ∀ i, i < 64 → b64char i ≠ 61 := by decide

/-- Decoding inverts encoding on genuine byte lists. -/
theorem b64decode_b64encode :
    ∀ (l : List Nat), (∀ b ∈ l, b < 256) → b64decode (b64encode l) = some l
  | [], _ => rfl
  | [b0], h => by
      have hb0 : b0 < 256 := h b0 (by simp)
      have h1 : b0 / 4 < 64 := by omega
      have h2 : b0 % 4 * 16 < 64 := by omega
      simp only [b64encode, b64decode, b64val_b64char _ h1, b64val_b64char _ h2]
      simp only [if_true, and_self, ite_true, Option.some.injEq, List.cons.injEq, and_true]
      omega
  | [b0, b1], h => by
      have hb0 : b0 < 256 := h b0 (by simp)
      have hb1 : b1 < 256 := h b1 (by simp)
      have h1 : b0 / 4 < 64 := by omega
      have h2 : b0 % 4 * 16 + b1 / 16 < 64 := by omega
      have h3 : b1 % 16 * 4 < 64 := by omega
      have n3 : b64char (b1 % 16 * 4) ≠ 61 := b64char_ne_pad _ h3
      simp only [b64encode, b64decode, b64val_b64char _ h1, b64val_b64char _ h2,
        b64val_b64char _ h3]
      simp only [if_neg n3, if_true, and_self, ite_true, Option.some.injEq, List.cons.injEq,
        and_true]
      exact ⟨by omega, by omega⟩
  | b0 :: b1 :: b2 :: rest, h => by
      have ih := b64decode_b64encode rest (fun b hb => h b (by simp [hb]))
      have hb0 : b0 < 256 := h b0 (by simp)
      have hb1 : b1 < 256 := h b1 (by simp)
      have hb2 : b2 < 256 := h b2 (by simp)
      have h1 : b0 / 4 < 64 := by omega
      have h2 : b0 % 4 * 16 + b1 / 16 < 64 := by omega
      have h3 : b1 % 16 * 4 + b2 / 64 < 64 := by omega
      have h4 : b2 % 64 < 64 := by omega
      have n3 : b64char (b1 % 16 * 4 + b2 / 64) ≠ 61 := b64char_ne_pad _ h3
      have n4 : b64char (b2 % 64) ≠ 61 := b64char_ne_pad _ h4
      simp only [b64encode, b64decode, b64val_b64char _ h1, b64val_b64char _ h2,
        b64val_b64char _ h3, b64val_b64char _ h4, if_neg n3, if_neg n4, ih]
      simp only [Option.some.injEq, List.cons.injEq, and_true]
      refine ⟨by omega, by omega, by omega⟩

/-! ### Claim C1: registration and the `verified` default -/

/-- C1 (counterexample): the registration handlers build the document with
`new Model({ ...req.body })`, so a request body that itself carries
`verified: true` is stored verified — the claim's "regardless of the fields
supplied in the registration request" fails at this concrete request. -/
theorem c1_register_verified_override_counterexample :
    (registerVendorDoc "v9" sampleBodyVerifiedTrue).verified ≠ false := by
  decide

/-- C1 (amended): an account created by vendor or supplier registration has
`verified = false` whenever the request body does not itself supply a
`verified` field (the schema default); a body carrying `verified` overrides
it. -/
theorem c1_register_verified_false_when_not_supplied (newId : String) (body : RegisterBody)
    (h : body.verified = none) :
    (registerVendorDoc newId body).verified = false ∧
    (registerSupplierDoc newId body).verified = false := by
  simp [registerVendorDoc, registerSupplierDoc, h]

/-- C1 witness: the amended theorem applied to a concrete registration body. -/
theorem c1_register_verified_false_witness :
    sampleBody.verified = none ∧
    (registerVendorDoc "v1" sampleBody).verified = false ∧
    (registerSupplierDoc "s1" sampleBody).verified = false :=
  ⟨rfl, c1_register_verified_false_when_not_supplied "v1" sampleBody rfl⟩

/-! ### Claim C3: Approve on a missing id or an invalid role -/

/-- C3 (counterexample): `POST /api/verify-user` replies `'User verified'`
even when no vendor has the requested id (the store here is empty) and even
when `userType` is neither `"vendor"` nor `"supplier"` — it reports success,
where the claim demands a NotFound resp. InvalidRole failure. -/
theorem c3_approve_counterexample_silent_success :
    (verifyUser emptyState "vendor" "68a1b2c3d4e5f60718293a4b").1 = "User verified" ∧
    (verifyUser emptyState "vendor" "68a1b2c3d4e5f60718293a4b").2 = emptyState ∧
    (verifyUser oneVendorState "admin" "v1").1 = "User verified" ∧
    (verifyUser oneVendorState "admin" "v1").2 = oneVendorState := by
  decide

/-- C3 (amended): when no account of the given role has the given id, or when
the role is neither `"vendor"` nor `"supplier"`, Approve replies with the
success message `'User verified'` and leaves the store unchanged (silent
no-op); no NotFound or InvalidRole error is surfaced. -/
theorem c3_approve_missing_or_bad_role_silent_noop (st : ServerState) (role uid : String)
    (hv : role = "vendor" → ∀ v ∈ st.vendors, v.id ≠ uid)
    (hs : role = "supplier" → ∀ s ∈ st.suppliers, s.id ≠ uid) :
    verifyUser st role uid = ("User verified", st) := by
  unfold verifyUser
  by_cases h1 : role = "vendor"
  · have hmap : st.vendors.map
        (fun v => if v.id = uid then { v with verified := true } else v) = st.vendors := by
      have h := List.map_congr_left (l := st.vendors)
        (f := fun v => if v.id = uid then { v with verified := true } else v)
        (g := fun v => v) (fun v hv' => by simp [hv h1 v hv'])
      simpa using h
    simp [h1, hmap]
  · by_cases h2 : role = "supplier"
    · have hmap : st.suppliers.map
          (fun s => if s.id = uid then { s with verified := true } else s) = st.suppliers := by
        have h := List.map_congr_left (l := st.suppliers)
          (f := fun s => if s.id = uid then { s with verified := true } else s)
          (g := fun s => s) (fun s hs' => by simp [hs h2 s hs'])
        simpa using h
      simp [h1, h2, hmap]
    · simp [h1, h2]

/-- C3 witness: the amended theorem applied to a concrete store and a missing
id. -/
theorem c3_approve_silent_noop_witness :
    (("vendor" : String) = "vendor" → ∀ v ∈ oneVendorState.vendors, v.id ≠ "missing") ∧
    (("vendor" : String) = "supplier" → ∀ s ∈ oneVendorState.suppliers, s.id ≠ "missing") ∧
    verifyUser oneVendorState "vendor" "missing" = ("User verified", oneVendorState) :=
  ⟨by decide, by decide,
    c3_approve_missing_or_bad_role_silent_noop oneVendorState "vendor" "missing"
      (by decide) (by decide)⟩

/-! ### Claim C4: Reject removes the account; a second Reject -/

/-- C4 (counterexample): after a first Reject deletes vendor `v1`, a second
`DELETE /api/reject-user/vendor/v1` again replies the success message
`'User rejected and deleted'` — it does not fail with NotFound as the claim
requires. -/
theorem c4_second_reject_counterexample :
    (rejectUser (rejectUser oneVendorState "vendor" "v1").2 "vendor" "v1").1
      = "User rejected and deleted" := by
  decide

/-- C4 (amended): Reject on an existing account removes it, so the
List-pending result (`GET /api/unverified-users`) no longer includes any
account of that role with that id; but a second Reject with the same id
again reports the success message and is a silent no-op on the store, rather
than failing with NotFound. -/
theorem c4_reject_removes_second_reject_silent (st : ServerState) (role id : String)
    (h : role = "vendor" ∨ role = "supplier") :
    (∀ v ∈ (unverifiedUsers (rejectUser st role id).2).1, role = "vendor" → v.id ≠ id) ∧
    (∀ s ∈ (unverifiedUsers (rejectUser st role id).2).2, role = "supplier" → s.id ≠ id) ∧
    rejectUser (rejectUser st role id).2 role id
      = ("User rejected and deleted", (rejectUser st role id).2) := by
  rcases h with h | h <;> subst h <;>
    simp [rejectUser, unverifiedUsers, List.mem_filter, List.filter_filter]

/-- C4 witness: reject the only vendor of a concrete store; the pending list
omits it and the second reject is a silent success. -/
theorem c4_reject_witness :
    (("vendor" : String) = "vendor" ∨ ("vendor" : String) = "supplier") ∧
    rejectUser (rejectUser oneVendorState "vendor" "v1").2 "vendor" "v1"
      = ("User rejected and deleted", (rejectUser oneVendorState "vendor" "v1").2) :=
  ⟨Or.inl rfl,
    (c4_reject_removes_second_reject_silent oneVendorState "vendor" "v1" (Or.inl rfl)).2.2⟩

/-! ### Claim C2: temporary upload files after Submit -/

/-- C2: the unlink loop `req.files?.forEach(file => fs.unlinkSync(file.path))`
sits after `await grievance.save()` inside the `try` block, so when the
ledger write throws, control jumps to `catch` and the staged temporary file
is never removed: at this concrete request the file is still on disk after
the 500 response, while a successful save does remove it. -/
theorem c2_temp_file_left_when_save_fails :
    ((submitGrievance { emptyState with disk := [sampleFile.path] }
        sampleGrievanceBody [sampleFile] false).2.disk = [sampleFile.path]) ∧
    ((submitGrievance { emptyState with disk := [sampleFile.path] }
        sampleGrievanceBody [sampleFile] true).2.disk = []) := by
  decide

/-! ### Claim C5: attachment count, order and base64 round-trip -/

theorem mem_of_index_some {α : Type} :
    ∀ {l : List α} {i : Nat} {a : α}, l[i]? = some a → a ∈ l
  | x :: _, 0, _, h => by
      simp only [List.getElem?_cons_zero, Option.some.injEq] at h
      exact h ▸ List.mem_cons_self x _
  | _ :: xs, i + 1, a, h => by
      simp only [List.getElem?_cons_succ] at h
      exact List.mem_cons_of_mem _ (mem_of_index_some h)

/-- C5: a successful Submit appends exactly one ledger entry whose
`attachments` array has one element per uploaded file; the element at each
index takes its `filename` and `mimetype` from the file uploaded at that
index, and its base64 `content` decodes back to that file's original bytes. -/
theorem c5_submit_attachments_roundtrip (st : ServerState) (body : GrievanceBody)
    (files : List UploadedFile) (h : ∀ f ∈ files, ∀ b ∈ f.bytes, b < 256) :
    (submitGrievance st body files true).2.grievances
      = st.grievances ++ [mkGrievance body files] ∧
    (mkGrievance body files).attachments.length = files.length ∧
    ∀ (i : Nat) (f : UploadedFile), files[i]? = some f →
      ∃ a : Attachment, (mkGrievance body files).attachments[i]? = some a ∧
        a.filename = f.originalname ∧ a.mimetype = f.mimetype ∧
        b64decode a.content = some f.bytes := by
  refine ⟨by simp [submitGrievance], by simp [mkGrievance], ?_⟩
  intro i f hf
  refine ⟨encodeFile f, ?_, rfl, rfl, ?_⟩
  · simp [mkGrievance, List.getElem?_map, hf]
  · exact b64decode_b64encode f.bytes (h f (mem_of_index_some hf))

/-- C5 witness: one uploaded file with bytes `[77, 97, 110]` (ASCII "Man"). -/
theorem c5_submit_attachments_roundtrip_witness :
    (∀ f ∈ [sampleFile], ∀ b ∈ f.bytes, b < 256) ∧
    (mkGrievance sampleGrievanceBody [sampleFile]).attachments.length = 1 :=
  ⟨by decide,
    (c5_submit_attachments_roundtrip emptyState sampleGrievanceBody [sampleFile]
      (by decide)).2.1⟩

/-! ### Claim C6: Approve is idempotent -/

/-- C6: applying Approve twice with the same role and id produces the same
response and the same final store state as applying it once; in particular
approving an already-verified account is a no-op success. -/
theorem c6_approve_idempotent (st : ServerState) (role uid : String) :
    verifyUser (verifyUser st role uid).2 role uid = verifyUser st role uid := by
  unfold verifyUser
  by_cases h1 : role = "vendor"
  · simp only [h1, if_true, ite_true]
    have hmap : (st.vendors.map
          (fun v => if v.id = uid then { v with verified := true } else v)).map
          (fun v => if v.id = uid then { v with verified := true } else v)
        = st.vendors.map (fun v => if v.id = uid then { v with verified := true } else v) := by
      rw [List.map_map]
      exact List.map_congr_left (fun v _ => by by_cases hid : v.id = uid <;>
        simp [Function.comp, hid])
    simp [hmap]
  · by_cases h2 : role = "supplier"
    · simp only [h1, h2, if_false, if_true, ite_true, ite_false]
      have hmap : (st.suppliers.map
            (fun s => if s.id = uid then { s with verified := true } else s)).map
            (fun s => if s.id = uid then { s with verified := true } else s)
          = st.suppliers.map (fun s => if s.id = uid then { s with verified := true } else s) := by
        rw [List.map_map]
        exact List.map_congr_left (fun s _ => by by_cases hid : s.id = uid <;>
          simp [Function.comp, hid])
      simp [hmap]
    · simp [h1, h2]

/-! ### Claim C7: listing filter semantics -/

theorem lowerString_vendor : lowerString "vendor" = "vendor" := by decide

theorem lowerString_supplier : lowerString "supplier" = "supplier" := by decide

/-- C7: with a specific role filter (a non-empty value other than `"all"`)
the listing returns exactly the stored entries whose `postedBy` matches the
filter case-insensitively — the handler lowercases the query and the schema
enum keeps stored values lowercase — and with filter `"all"` or no filter it
returns every stored entry. -/
theorem c7_list_filter_case_insensitive (st : ServerState) (p : String)
    (henum : ∀ g ∈ st.grievances, g.postedBy = "vendor" ∨ g.postedBy = "supplier")
    (hne : p ≠ "") (hnall : p ≠ "all") :
    (listGrievances st (some p)).Perm
      (st.grievances.filter (fun g => lowerString g.postedBy == lowerString p)) ∧
    (listGrievances st (some "all")).Perm st.grievances ∧
    (listGrievances st none).Perm st.grievances := by
  refine ⟨?_, ?_, ?_⟩
  · have hfil : st.grievances.filter (fun g => g.postedBy == lowerString p)
        = st.grievances.filter (fun g => lowerString g.postedBy == lowerString p) := by
      apply List.filter_congr
      intro g hg
      rcases henum g hg with h | h <;> rw [h]
      · rw [lowerString_vendor]
      · rw [lowerString_supplier]
    simp only [listGrievances, if_pos (And.intro hne hnall), hfil]
    exact List.perm_insertionSort _ _
  · simp only [listGrievances, sortByDateDesc]
    rw [if_neg (by simp)]
    exact List.perm_insertionSort _ _
  · simp only [listGrievances, sortByDateDesc]
    exact List.perm_insertionSort _ _

/-- C7 witness: a store holding one vendor and one supplier grievance,
queried with the mixed-case filter `"SUPPLIER"`. -/
theorem c7_list_filter_witness :
    (∀ g ∈ ({ emptyState with
        grievances := [sampleGrievanceVendor, sampleGrievanceSupplier] } :
          ServerState).grievances,
      g.postedBy = "vendor" ∨ g.postedBy = "supplier") ∧
    ("SUPPLIER" : String) ≠ "" ∧ ("SUPPLIER" : String) ≠ "all" ∧
    (listGrievances { emptyState with
        grievances := [sampleGrievanceVendor, sampleGrievanceSupplier] }
      (some "SUPPLIER")).Perm
      (({ emptyState with
          grievances := [sampleGrievanceVendor, sampleGrievanceSupplier] } :
            ServerState).grievances.filter
        (fun g => lowerString g.postedBy == lowerString "SUPPLIER")) :=
  ⟨by decide, by decide, by decide,
    (c7_list_filter_case_insensitive
      { emptyState with grievances := [sampleGrievanceVendor, sampleGrievanceSupplier] }
      "SUPPLIER" (by decide) (by decide) (by decide)).1⟩

/-! ### Claim C8: listing order -/

/-- C8: every listing result is sorted by `issueDate` descending, the
unfiltered listing is a permutation of the stored entries, and for three
stored entries with strictly increasing issue dates the listing returns them
most recent first. -/
theorem c8_list_sorted_date_descending (st : ServerState) (q : Option String)
    (e1 e2 e3 : Grievance)
    (h12 : e1.issueDate < e2.issueDate) (h23 : e2.issueDate < e3.issueDate) :
    List.Sorted (fun a b => b.issueDate ≤ a.issueDate) (listGrievances st q) ∧
    (listGrievances st none).Perm st.grievances ∧
    listGrievances { emptyState with grievances := [e1, e2, e3] } none = [e3, e2, e1] := by
  refine ⟨?_, ?_, ?_⟩
  · unfold listGrievances sortByDateDesc
    exact List.sorted_insertionSort _ _
  · unfold listGrievances sortByDateDesc
    exact List.perm_insertionSort _ _
  · have n13 : ¬ e3.issueDate ≤ e1.issueDate := Nat.not_le.mpr (Nat.lt_trans h12 h23)
    have n23 : ¬ e3.issueDate ≤ e2.issueDate := Nat.not_le.mpr h23
    have n12 : ¬ e2.issueDate ≤ e1.issueDate := Nat.not_le.mpr h12
    simp [listGrievances, sortByDateDesc, List.insertionSort, List.orderedInsert,
      n13, n23, n12]

/-- C8 witness: three concrete grievances with issue dates 10 < 20 < 30 come
back in the order 30, 20, 10. -/
theorem c8_list_sorted_witness :
    sampleGrievanceVendor.issueDate < sampleGrievanceSupplier.issueDate ∧
    sampleGrievanceSupplier.issueDate < sampleGrievanceVendor2.issueDate ∧
    listGrievances { emptyState with
        grievances := [sampleGrievanceVendor, sampleGrievanceSupplier, sampleGrievanceVendor2] }
      none
      = [sampleGrievanceVendor2, sampleGrievanceSupplier, sampleGrievanceVendor] :=
  ⟨by decide, by decide,
    (c8_list_sorted_date_descending emptyState none
      sampleGrievanceVendor sampleGrievanceSupplier sampleGrievanceVendor2
      (by decide) (by decide)).2.2⟩

/-! ### Claim C9: Reject touches only the account collections -/

/-- C9: rejecting an account mutates only the account store — the menu, cart
and grievance collections and the upload directory are untouched, and every
account whose id differs from the rejected one is present afterwards exactly
when it was present before. -/
theorem c9_reject_frame (st : ServerState) (role uid : String) :
    (rejectUser st role uid).2.menus = st.menus ∧
    (rejectUser st role uid).2.carts = st.carts ∧
    (rejectUser st role uid).2.grievances = st.grievances ∧
    (rejectUser st role uid).2.disk = st.disk ∧
    (∀ v : VendorAcct, v.id ≠ uid →
      (v ∈ (rejectUser st role uid).2.vendors ↔ v ∈ st.vendors)) ∧
    (∀ s : SupplierAcct, s.id ≠ uid →
      (s ∈ (rejectUser st role uid).2.suppliers ↔ s ∈ st.suppliers)) := by
  unfold rejectUser
  by_cases h1 : role = "vendor" <;> by_cases h2 : role = "supplier" <;>
    simp [h1, h2, List.mem_filter] <;>
    exact fun x hx _ => hx

/-- C9 witness: rejecting supplier id `s1` leaves a vendor with a different
id in place and all non-account collections unchanged. -/
theorem c9_reject_frame_witness :
    sampleVendor.id ≠ "s1" ∧
    (sampleVendor ∈ (rejectUser oneVendorState "supplier" "s1").2.vendors ↔
      sampleVendor ∈ oneVendorState.vendors) ∧
    (rejectUser oneVendorState "supplier" "s1").2.grievances = oneVendorState.grievances :=
  ⟨by decide,
    (c9_reject_frame oneVendorState "supplier" "s1").2.2.2.2.1 sampleVendor (by decide),
    (c9_reject_frame oneVendorState "supplier" "s1").2.2.1⟩

/-! ### Claim C10: shop-status update -/

theorem updateFirstSupplier_eq_none (p : SupplierAcct → Bool) (f : SupplierAcct → SupplierAcct) :
    ∀ l : List SupplierAcct, updateFirstSupplier p f l = none ↔ ∀ s ∈ l, p s = false
  | [] => by simp [updateFirstSupplier]
  | s :: rest => by
      by_cases hp : p s
      · simp [updateFirstSupplier, hp]
      · simp [updateFirstSupplier, hp, Option.map_eq_none',
          updateFirstSupplier_eq_none p f rest]

theorem updateFirstSupplier_eq_some (p : SupplierAcct → Bool) (f : SupplierAcct → SupplierAcct) :
    ∀ (l l' : List SupplierAcct), updateFirstSupplier p f l = some l' →
      ∃ (i : Nat) (hi : i < l.length),
        p (l.get ⟨i, hi⟩) = true ∧ l' = l.set i (f (l.get ⟨i, hi⟩))
  | [], l', h => by simp [updateFirstSupplier] at h
  | s :: rest, l', h => by
      by_cases hp : p s
      · refine ⟨0, by simp, by simpa using hp, ?_⟩
        simp only [updateFirstSupplier, hp, if_true, ite_true, Option.some.injEq] at h
        simp [← h]
      · simp only [updateFirstSupplier, hp, if_false, ite_false] at h
        rcases Option.map_eq_some'.mp h with ⟨rest', hr, hl⟩
        obtain ⟨i, hi, hpi, hset⟩ := updateFirstSupplier_eq_some p f rest rest' hr
        refine ⟨i + 1, by simpa using hi, by simpa using hpi, ?_⟩
        simp [← hl, hset]

/-- C10: the shop-status update, given a non-empty phone and a boolean
status, leaves the vendor, menu, cart and grievance collections and the
upload directory unchanged; when no supplier has that phone it fails with
the NotFound reply `'Supplier not found'` and the whole state is unchanged;
when some supplier has that phone it reports success and the supplier list
becomes the old list with the first matching supplier replaced by itself
with only `shopStatus` overwritten (all its other fields, `verified`
included, and all other suppliers keep their values). -/
theorem c10_shop_status_frame (st : ServerState) (phone : String) (status : Bool)
    (hp : phone ≠ "") :
    ((shopStatusUpdate st phone status).2.vendors = st.vendors ∧
     (shopStatusUpdate st phone status).2.menus = st.menus ∧
     (shopStatusUpdate st phone status).2.carts = st.carts ∧
     (shopStatusUpdate st phone status).2.grievances = st.grievances ∧
     (shopStatusUpdate st phone status).2.disk = st.disk) ∧
    ((∀ s ∈ st.suppliers, s.phone ≠ phone) →
      shopStatusUpdate st phone status = (Except.error "Supplier not found", st)) ∧
    ((∃ s ∈ st.suppliers, s.phone = phone) →
      (shopStatusUpdate st phone status).1 = Except.ok "Shop status updated successfully" ∧
      ∃ (i : Nat) (hi : i < st.suppliers.length),
        (st.suppliers.get ⟨i, hi⟩).phone = phone ∧
        (shopStatusUpdate st phone status).2.suppliers
          = st.suppliers.set i { st.suppliers.get ⟨i, hi⟩ with shopStatus := status }) := by
  refine ⟨?_, ?_, ?_⟩
  · unfold shopStatusUpdate
    rw [if_neg hp]
    cases hcase : updateFirstSupplier (fun s => s.phone == phone)
        (fun s => { s with shopStatus := status }) st.suppliers <;> simp
  · intro hnone
    have h0 : updateFirstSupplier (fun s => s.phone == phone)
        (fun s => { s with shopStatus := status }) st.suppliers = none :=
      (updateFirstSupplier_eq_none _ _ _).mpr
        (fun s hs => beq_eq_false_iff_ne.mpr (hnone s hs))
    unfold shopStatusUpdate
    rw [if_neg hp, h0]
  · intro hsome
    cases hcase : updateFirstSupplier (fun s => s.phone == phone)
        (fun s => { s with shopStatus := status }) st.suppliers with
    | none =>
        rcases hsome with ⟨s, hs, hphone⟩
        have := (updateFirstSupplier_eq_none _ _ _).mp hcase s hs
        simp [hphone] at this
    | some l' =>
        obtain ⟨i, hi, hpi, hset⟩ := updateFirstSupplier_eq_some _ _ _ _ hcase
        have hph : (st.suppliers.get ⟨i, hi⟩).phone = phone := by
          simpa using hpi
        constructor
        · unfold shopStatusUpdate
          rw [if_neg hp, hcase]
        · refine ⟨i, hi, hph, ?_⟩
          unfold shopStatusUpdate
          rw [if_neg hp, hcase]
          simpa using hset

/-- C10 witness: updating the shop status of the only supplier. -/
theorem c10_shop_status_witness :
    ("9000000002" : String) ≠ "" ∧
    (shopStatusUpdate oneSupplierState "9000000002" true).2.vendors
      = oneSupplierState.vendors ∧
    (shopStatusUpdate oneSupplierState "9000000002" true).1
      = Except.ok "Shop status updated successfully" :=
  ⟨by decide,
    (c10_shop_status_frame oneSupplierState "9000000002" true (by decide)).1.1,
    ((c10_shop_status_frame oneSupplierState "9000000002" true (by decide)).2.2
      ⟨sampleSupplier, by decide, by decide⟩).1⟩

end StreetEats
